import Mathlib

set_option maxRecDepth 100000

/-!
Verification of the VolatilityHunter signal-generation and paper-portfolio
engine (`src/strategy.py`, `src/tracker.py`, `src/config.py`) against its
natural-language specification.

Modelling conventions:
* pandas float columns are modelled over `ℚ`; `NaN` entries are modelled by
  `Option ℚ` with `none` playing the role of `NaN`.
* A price row (`PriceBar`) carries `date` (days since an arbitrary epoch,
  `none` models `NaT`), `high`, `low`, `close`, `volume`.  The `Open` column
  is only read by the engulfing-candle detector, which feeds nothing but
  human-readable reason strings, so it is not modelled.
* The Python float power `**` used by `calculate_cagr` is modelled by
  `Real.rpow`; `pandas.std` (which takes a square root) is modelled by
  `Real.sqrt`.  Everything else stays in `ℚ` and is executable.
* Reason strings and the diagnostic `indicators` dictionary of
  `analyze_stock` are not modelled: no claim depends on them and they do not
  feed back into any decision.
-/

/-- One row of the OHLCV table (one trading day). `date` is measured in days;
`none` models a missing (`NaT`) date, which `calculate_cagr` drops. -/
structure Bar where
  date : Option ℚ
  close : ℚ
  high : ℚ
  low : ℚ
  volume : ℚ
deriving DecidableEq, Repr

/-- Default bar used only to give `List.headD`/`List.getLastD` a value on
branches that the source guards against reaching. -/
def dBar : Bar := ⟨none, 0, 0, 0, 0⟩

def closes (df : List Bar) : List ℚ := df.map (·.close)

def highsOf (df : List Bar) : List ℚ := df.map (·.high)

def lowsOf (df : List Bar) : List ℚ := df.map (·.low)

def volumesOf (df : List Bar) : List ℚ := df.map (·.volume)

/-- Models `df.tail(n)` of pandas: the last `n` rows. -/
def lastN (n : ℕ) (l : List α) : List α := l.drop (l.length - n)

/-- Mean of a list of rationals (`Series.mean`). -/
def meanQ (l : List ℚ) : ℚ := l.sum / l.length

/-- Models `Series.rolling(window=n).mean()`-style transform: position `i` holds
`f` of the window `xs[i-n+1 .. i]` once `n` values are available, `none`
(pandas `NaN`) before that. -/
def rollingQ (n : ℕ) (f : List ℚ → ℚ) (xs : List ℚ) : List (Option ℚ) :=
  (List.range xs.length).map fun i =>
    if n ≤ i + 1 then some (f ((xs.drop (i + 1 - n)).take n)) else none

/-- Rolling mean over a column that may already contain `NaN`s: pandas
propagates `NaN` whenever the window contains one (default `min_periods`). -/
def rollingMeanOpt (n : ℕ) (xs : List (Option ℚ)) : List (Option ℚ) :=
  (List.range xs.length).map fun i =>
    if n ≤ i + 1 then
      let w := (xs.drop (i + 1 - n)).take n
      if w.all (·.isSome) then some (meanQ (w.map (·.getD 0))) else none
    else none

/-- Last element of an indicator column, flattening the pandas `NaN`
(`latest['col']` read of a possibly-`NaN` cell). -/
def lastOpt (xs : List (Option ℚ)) : Option ℚ := (xs.getLast?).bind id

/-! ### `STRATEGY_PARAMS` (`src/config.py`) -/
def smaPeriod : ℕ := 200

def stochasticKPeriod : ℕ := 10

def stochasticDPeriod : ℕ := 3

def stochasticSmooth : ℕ := 3

def sweetSpotLower : ℚ := 32

def sweetSpotUpper : ℚ := 80

def minCagr : ℚ := 15

/-! ### Indicator library (`src/strategy.py`) -/
/-- Models `calculate_sma`: rolling mean of `Close` over `period` bars. -/
def calculate_sma (df : List Bar) (period : ℕ) : List (Option ℚ) :=
  rollingQ period meanQ (closes df)

/-- Models `calculate_volume_sma`: rolling mean of `Volume` (period 30 in use). -/
def calculate_volume_sma (df : List Bar) (period : ℕ) : List (Option ℚ) :=
  rollingQ period meanQ (volumesOf df)

/-- Raw stochastic %K column: `100 * (Close - min(Low, k)) / (max(High, k)
- min(Low, k))`.  A zero denominator (flat 10-bar range) is pandas `NaN`
division, modelled as `none`. -/
def stochasticRawK (df : List Bar) : List (Option ℚ) :=
  (List.range df.length).map fun i =>
    if stochasticKPeriod ≤ i + 1 then
      let lw := ((lowsOf df).drop (i + 1 - stochasticKPeriod)).take stochasticKPeriod
      let hw := ((highsOf df).drop (i + 1 - stochasticKPeriod)).take stochasticKPeriod
      let lo := lw.foldr min (lw.headD 0)
      let hi := hw.foldr max (hw.headD 0)
      if hi - lo = 0 then none
      else some (100 * (((df.getD i dBar).close - lo) / (hi - lo)))
    else none

/-- Smoothed %K column of `calculate_stochastic`. -/
def stochasticKCol (df : List Bar) : List (Option ℚ) :=
  rollingMeanOpt stochasticSmooth (stochasticRawK df)

/-- The %D column of `calculate_stochastic`. -/
def stochasticDCol (df : List Bar) : List (Option ℚ) :=
  rollingMeanOpt stochasticDPeriod (stochasticKCol df)

/-- Models `latest['SMA_200']` after `add_indicators`. -/
def sma200last (df : List Bar) : Option ℚ := lastOpt (calculate_sma df 200)

def sma25last (df : List Bar) : Option ℚ := lastOpt (calculate_sma df 25)

def sma50last (df : List Bar) : Option ℚ := lastOpt (calculate_sma df 50)

def sma100last (df : List Bar) : Option ℚ := lastOpt (calculate_sma df 100)

/-- Models `latest['Volume_SMA_30']` after `add_indicators`. -/
def volumeSma30last (df : List Bar) : Option ℚ := lastOpt (calculate_volume_sma df 30)

/-- Models `latest['Stochastic_K']` after `add_indicators`. -/
def stochKlast (df : List Bar) : Option ℚ := lastOpt (stochasticKCol df)

/-- Models `latest['Stochastic_D']` after `add_indicators`. -/
def stochDlast (df : List Bar) : Option ℚ := lastOpt (stochasticDCol df)

/-- Models `latest['Close']`. -/
def lastClose (df : List Bar) : ℚ := (df.getLastD dBar).close

/-- Models `latest['Volume']`. -/
def lastVolume (df : List Bar) : ℚ := (df.getLastD dBar).volume

/-- Python float comparison `a > b` where `b` may be `NaN`: any comparison
with `NaN` is `False`. -/
def gtNaN (a : ℚ) (b : Option ℚ) : Bool :=
  match b with
  | some v => a > v
  | none => false

/-! ### Checklist gates (`src/strategy.py`) -/
/-- Models `check_volume_quality(df, min_days=30)` decision component: `False` with
fewer than 30 bars, `False` on `NaN` or zero 30-day average, else
`current / avg >= 1.0`. -/
def check_volume_quality (df : List Bar) : Bool :=
  if df.length < 30 then false
  else
    match volumeSma30last df with
    | none => false
    | some avg => if avg = 0 then false else (lastVolume df / avg ≥ 1)

/-- The trailing 5-day volume window of `check_volume_consistency`. -/
def volWindow (df : List Bar) : List ℚ := lastN 5 (volumesOf df)

/-- Its mean (`recent_volume.mean()`). -/
def volMean (df : List Bar) : ℚ := meanQ (volWindow df)

/-- Its sample variance: `pandas.Series.std` uses `ddof=1`, so the divisor is
`n - 1 = 4`. -/
def volVar (df : List Bar) : ℚ :=
  ((volWindow df).map (fun v => (v - volMean df) ^ 2)).sum / 4

/-- Models `volume_std = recent_volume.std()`, a real square root. -/
noncomputable def volStd (df : List Bar) : ℝ := Real.sqrt (volVar df)

/-- First component of `check_volume_consistency`: every one of the trailing
5 volumes lies within two standard deviations of their own mean (`False`
with fewer than 5 bars). -/
def volConsistent (df : List Bar) : Prop :=
  5 ≤ df.length ∧ ∀ v ∈ volWindow df, |(v : ℝ) - (volMean df : ℝ)| ≤ 2 * volStd df

/-- Second component of `check_volume_consistency` (`current_vs_avg`, bound
to `volume_increasing` by `analyze_stock`): current volume strictly above the
5-day mean (`False` with fewer than 5 bars). -/
def volCurrentVsAvg (df : List Bar) : Bool :=
  if df.length < 5 then false
  else ((volWindow df).getLastD 0) > volMean df

/-- First output of `check_stochastic_crossover(df, days=3)` (`k_above_d`):
`False` with fewer than 4 bars or any `NaN` among the current and previous
%K/%D, else `curr_k > curr_d`. -/
def stochKAboveD (df : List Bar) : Bool :=
  if df.length < 4 then false
  else
    match lastOpt (stochasticKCol df), lastOpt (stochasticDCol df),
        ((stochasticKCol df).getD (df.length - 2) none),
        ((stochasticDCol df).getD (df.length - 2) none) with
    | some ck, some cd, some _, some _ => ck > cd
    | _, _, _, _ => false

/-- Second output of `check_stochastic_crossover` (`trend_up`): both %K and
%D strictly above their values 3 bars earlier; comparisons against a `NaN`
value 3 bars back are Python-`False`. -/
def stochTrendUp (df : List Bar) : Bool :=
  if df.length < 4 then false
  else
    match lastOpt (stochasticKCol df), lastOpt (stochasticDCol df),
        ((stochasticKCol df).getD (df.length - 2) none),
        ((stochasticDCol df).getD (df.length - 2) none) with
    | some ck, some cd, some _, some _ =>
        gtNaN ck ((stochasticKCol df).getD (df.length - 4) none) &&
        gtNaN cd ((stochasticDCol df).getD (df.length - 4) none)
    | _, _, _, _ => false

/-- Models `check_earnings_safety` is a stub that always reports safe; with no
ticker `analyze_stock` also substitutes `True`. -/
def check_earnings_safety (ticker : Option String) : Bool :=
  match ticker with
  | some _ => true
  | none => true

/-- Models `detect_head_and_shoulders(df, lookback=60)`.  Peaks are strict local
maxima of the trailing 60 highs (interior indices only); the last three must
form head-above-shoulders with shoulders within 20% of each other and a
declining neckline.  The guard `max ls rs = 0` models the
`except`-returns-`False` branch around the Python division. -/
def detect_head_and_shoulders (df : List Bar) : Bool :=
  if df.length < 60 then false
  else
    let hs := lastN 60 (highsOf df)
    let peaks := ((List.range 58).map (· + 1)).filterMap fun i =>
      if hs.getD i 0 > hs.getD (i - 1) 0 ∧ hs.getD i 0 > hs.getD (i + 1) 0 then
        some (hs.getD i 0)
      else none
    if peaks.length < 3 then false
    else
      match lastN 3 peaks with
      | [ls, hd, rs] =>
          if max ls rs = 0 then false
          else
            (hd > ls && hd > rs) && (|ls - rs| / max ls rs < 1/5) && (rs < ls)
      | _ => false

/-- Models `check_power_stock_exception`: overbought (%K above 80) and price above
all four SMAs and current volume at least 50% above its 30-day average.
Comparisons against `NaN` cells are Python-`False`. -/
def check_power_stock (df : List Bar) : Bool :=
  if df.length < 200 then false
  else
    match stochKlast df with
    | none => false
    | some k =>
      if ¬ (k > 80) then false
      else
        (gtNaN (lastClose df) (sma25last df) && gtNaN (lastClose df) (sma50last df) &&
         gtNaN (lastClose df) (sma100last df) && gtNaN (lastClose df) (sma200last df)) &&
        (match volumeSma30last df with
         | some v => lastVolume df > v * (3/2)
         | none => false)

/-! ### `calculate_cagr` (`src/strategy.py`) -/
/-- Rows with a valid date (`df.dropna(subset=['date'])`). -/
def usableBars (df : List Bar) : List Bar := df.filter (·.date.isSome)

/-- Models `(a - b).days` of a pandas `Timedelta`: the floor of the day difference. -/
def daysBetween (a b : ℚ) : ℤ := ⌊a - b⌋

/-- The window `calculate_cagr` measures over: rows of the last
`years * 365.25` days, falling back to all usable rows when that window has
fewer than 2 points. -/
def cagrWindow (df : List Bar) (years : ℚ) : List Bar :=
  let c := usableBars df
  let endDate := (c.getLastD dBar).date.getD 0
  let targetStart := endDate - years * (1461/4)
  let recent := c.filter fun b =>
    match b.date with
    | some d => targetStart ≤ d
    | none => false
  if recent.length < 2 then c else recent

/-- Start close of the CAGR window. -/
def cagrStart (df : List Bar) (years : ℚ) : ℚ := ((cagrWindow df years).headD dBar).close

/-- End close of the CAGR window. -/
def cagrEnd (df : List Bar) (years : ℚ) : ℚ := ((cagrWindow df years).getLastD dBar).close

/-- Models `actual_days` between the first and last row of the CAGR window. -/
def cagrDays (df : List Bar) (years : ℚ) : ℤ :=
  daysBetween (((cagrWindow df years).getLastD dBar).date.getD 0)
    (((cagrWindow df years).headD dBar).date.getD 0)

/-- Models `calculate_cagr(df, years=2)`: `0.0` on fewer than 2 rows, fewer than 2
dated rows, non-positive elapsed years, or non-positive start price; else
`((end/start) ** (1/actual_years) - 1) * 100` with `actual_years =
actual_days / 365.25`. -/
noncomputable def calculate_cagr (df : List Bar) (years : ℚ) : ℝ :=
  if df.length < 2 then 0
  else if (usableBars df).length < 2 then 0
  else
    let ay : ℚ := (cagrDays df years : ℚ) / (1461/4)
    if ay ≤ 0 ∨ cagrStart df years ≤ 0 then 0
    else (Real.rpow ((cagrEnd df years / cagrStart df years : ℚ) : ℝ) ((1 / ay : ℚ) : ℝ) - 1) * 100

/-! ### `analyze_stock` (`src/strategy.py`) -/
inductive Signal where
  | BUY
  | SELL
  | HOLD
  | INSUFFICIENT_DATA
deriving DecidableEq, Repr

/-- What a classification returns, minus reason strings and the diagnostic
indicator dictionary.  The first `INSUFFICIENT_DATA` return carries no
`quality_score` key, hence the `Option`. -/
structure AnalysisResult where
  signal : Signal
  quality_score : Option ℝ

/-- Models `quality_score = float(cagr) * (float(stoch_k) / 100.0)` with fallback to
the bare CAGR when the stochastic is `NaN`. -/
noncomputable def rawQuality (df : List Bar) : ℝ :=
  match stochKlast df with
  | some k => calculate_cagr df 2 * ((k : ℝ) / 100)
  | none => calculate_cagr df 2

/-- Checklist gate 1: `price > sma_200`. -/
def priceAboveSma (df : List Bar) : Bool := gtNaN (lastClose df) (sma200last df)

/-- Checklist gate 2: `sweet_spot_lower <= stoch_k <= sweet_spot_upper`. -/
def inSweetSpot (df : List Bar) : Bool :=
  match stochKlast df with
  | some k => sweetSpotLower ≤ k ∧ k ≤ sweetSpotUpper
  | none => false

/-- SELL trigger 3: `stoch_k < sweet_spot_lower` (breakdown). -/
def stochBreakdown (df : List Bar) : Bool :=
  match stochKlast df with
  | some k => k < sweetSpotLower
  | none => false

/-- The professional checklist of `analyze_stock`: the conjunction of the
seven hard gates (the candlestick item 7 is a comment in the source, and
the earnings gate is the always-safe stub). -/
def checklistPass (df : List Bar) (ticker : Option String) : Prop :=
  priceAboveSma df = true ∧ inSweetSpot df = true ∧ stochKAboveD df = true ∧
  stochTrendUp df = true ∧ check_volume_quality df = true ∧ volConsistent df ∧
  check_earnings_safety ticker = true

/-- The SELL triggers checked after a failed checklist: trend break,
head-and-shoulders, stochastic breakdown. -/
def sellTrigger (df : List Bar) : Bool :=
  (!priceAboveSma df) || detect_head_and_shoulders df || stochBreakdown df

open Classical in

/-- Models `analyze_stock(df, ticker)` with the Friday flag (`is_friday_trading()`
reads the wall clock) passed explicitly.  Branch for branch the source:
insufficient length, indicators not yet computable, CAGR floor, full
checklist BUY with a 1.5x quality bonus, SELL triggers, power-stock HOLD
with a 1.2x bonus, Friday HOLD, default HOLD. -/
noncomputable def analyze_stock (df : List Bar) (ticker : Option String) (isFriday : Bool) :
    AnalysisResult :=
  if df.length < smaPeriod then ⟨.INSUFFICIENT_DATA, none⟩
  else if sma200last df = none ∨ stochKlast df = none then
    ⟨.INSUFFICIENT_DATA, some (rawQuality df)⟩
  else if calculate_cagr df 2 < (minCagr : ℝ) then ⟨.HOLD, some (rawQuality df)⟩
  else if checklistPass df ticker then ⟨.BUY, some (rawQuality df * 1.5)⟩
  else if sellTrigger df then ⟨.SELL, some (rawQuality df)⟩
  else if check_power_stock df then ⟨.HOLD, some (rawQuality df * 1.2)⟩
  else if isFriday then ⟨.HOLD, some (rawQuality df)⟩
  else ⟨.HOLD, some (rawQuality df)⟩

/-! ### Sector mapping (`src/strategy.py`) -/
/-- Models `SECTOR_MAPPING`, in source order.  The Python dict literal repeats the
keys `CMCSA`, `DIS`, `NFLX` and `CSCO` (Consumer/Technology first,
Communications later); dict semantics keep the last binding, which is why
`sectorOf` scans the reversed list. -/
def SECTOR_MAPPING : List (String × String) := [
  ("AAPL", "Technology"), ("MSFT", "Technology"), ("GOOGL", "Technology"), ("GOOG", "Technology"),
  ("META", "Technology"), ("NVDA", "Technology"), ("AMD", "Technology"), ("INTC", "Technology"),
  ("CRM", "Technology"), ("ADBE", "Technology"), ("ORCL", "Technology"), ("CSCO", "Technology"),
  ("PYPL", "Technology"), ("SQ", "Technology"), ("SHOP", "Technology"), ("SNOW", "Technology"),
  ("CRWD", "Technology"), ("ZS", "Technology"), ("OKTA", "Technology"), ("PANW", "Technology"),
  ("NET", "Technology"), ("DDOG", "Technology"), ("FTNT", "Technology"), ("CYBR", "Technology"),
  ("PLTR", "Technology"), ("RBLX", "Technology"), ("U", "Technology"), ("OPEN", "Technology"),
  ("RDFN", "Technology"), ("Z", "Technology"), ("COMP", "Technology"), ("SPOT", "Technology"),
  ("JNJ", "Healthcare"), ("UNH", "Healthcare"), ("PFE", "Healthcare"), ("ABBV", "Healthcare"),
  ("LLY", "Healthcare"), ("MRK", "Healthcare"), ("TMO", "Healthcare"), ("ABT", "Healthcare"),
  ("DHR", "Healthcare"), ("BMY", "Healthcare"), ("AMGN", "Healthcare"), ("GILD", "Healthcare"),
  ("REGN", "Healthcare"), ("VRTX", "Healthcare"), ("BIIB", "Healthcare"), ("MDT", "Healthcare"),
  ("ISRG", "Healthcare"), ("SYK", "Healthcare"), ("BSX", "Healthcare"), ("ZTS", "Healthcare"),
  ("BRK.B", "Finance"), ("JPM", "Finance"), ("V", "Finance"), ("MA", "Finance"), ("BAC", "Finance"),
  ("WFC", "Finance"), ("GS", "Finance"), ("MS", "Finance"), ("C", "Finance"), ("AXP", "Finance"),
  ("BLK", "Finance"), ("SPGI", "Finance"), ("ICE", "Finance"), ("CME", "Finance"), ("CB", "Finance"),
  ("AON", "Finance"), ("AFL", "Finance"), ("MMC", "Finance"), ("AJG", "Finance"), ("TRV", "Finance"),
  ("ALL", "Finance"), ("MET", "Finance"), ("PRU", "Finance"), ("LNC", "Finance"), ("HIG", "Finance"),
  ("AMZN", "Consumer"), ("TSLA", "Consumer"), ("HD", "Consumer"), ("MCD", "Consumer"),
  ("NKE", "Consumer"), ("LOW", "Consumer"), ("TJX", "Consumer"), ("TGT", "Consumer"),
  ("COST", "Consumer"), ("WMT", "Consumer"), ("BKNG", "Consumer"), ("EXPE", "Consumer"),
  ("DIS", "Consumer"), ("CMCSA", "Consumer"), ("NFLX", "Consumer"), ("ROKU", "Consumer"),
  ("DECK", "Consumer"), ("LULU", "Consumer"), ("PTON", "Consumer"), ("EL", "Consumer"),
  ("XOM", "Energy"), ("CVX", "Energy"), ("COP", "Energy"), ("EOG", "Energy"), ("SLB", "Energy"),
  ("HAL", "Energy"), ("OXY", "Energy"), ("BP", "Energy"), ("SHEL", "Energy"), ("TOT", "Energy"),
  ("ENB", "Energy"), ("KMI", "Energy"), ("WMB", "Energy"), ("ET", "Energy"), ("MPC", "Energy"),
  ("BA", "Industrial"), ("CAT", "Industrial"), ("GE", "Industrial"), ("HON", "Industrial"),
  ("UPS", "Industrial"), ("RTX", "Industrial"), ("LMT", "Industrial"), ("NOC", "Industrial"),
  ("GD", "Industrial"), ("DE", "Industrial"), ("MMM", "Industrial"), ("3M", "Industrial"),
  ("PH", "Industrial"), ("ITW", "Industrial"), ("ETN", "Industrial"), ("EMR", "Industrial"),
  ("CARR", "Industrial"), ("OTIS", "Industrial"), ("GEV", "Industrial"), ("TXT", "Industrial"),
  ("LIN", "Materials"), ("APD", "Materials"), ("ECL", "Materials"), ("DD", "Materials"),
  ("DOW", "Materials"), ("NEM", "Materials"), ("FCX", "Materials"), ("BHP", "Materials"),
  ("RIO", "Materials"), ("VALE", "Materials"), ("AA", "Materials"), ("ALB", "Materials"),
  ("NEE", "Utilities"), ("DUK", "Utilities"), ("SO", "Utilities"), ("AEP", "Utilities"),
  ("XEL", "Utilities"), ("ED", "Utilities"), ("PEG", "Utilities"), ("WEC", "Utilities"),
  ("EIX", "Utilities"), ("SRE", "Utilities"), ("CNP", "Utilities"), ("AWK", "Utilities"),
  ("AMT", "Real Estate"), ("PLD", "Real Estate"), ("CCI", "Real Estate"), ("EQIX", "Real Estate"),
  ("PSA", "Real Estate"), ("SPG", "Real Estate"), ("VTR", "Real Estate"), ("WELL", "Real Estate"),
  ("DLR", "Real Estate"), ("EXR", "Real Estate"), ("AVB", "Real Estate"), ("EQR", "Real Estate"),
  ("VZ", "Communications"), ("T", "Communications"), ("TMUS", "Communications"),
  ("CHTR", "Communications"), ("CMCSA", "Communications"), ("DIS", "Communications"),
  ("NFLX", "Communications"), ("FOXA", "Communications"), ("WBD", "Communications"),
  ("PARA", "Communications"), ("TWC", "Communications"), ("CSCO", "Communications")]

/-- First-match association-list lookup (Python `dict` access for the
unique-keyed dictionaries modelled here). -/
def lookupQ (k : String) (l : List (String × α)) : Option α :=
  match l with
  | [] => none
  | (k', v) :: rest => if k' = k then some v else lookupQ k rest

/-- Models `SECTOR_MAPPING[ticker]` with dict-literal last-binding-wins semantics. -/
def sectorOf (ticker : String) : Option String := lookupQ ticker SECTOR_MAPPING.reverse

/-- Models `check_sector_diversification(portfolio_positions, new_ticker,
max_per_sector=3)`: unknown tickers always pass; known tickers pass while
strictly fewer than `maxPer` held tickers share their sector. -/
def check_sector_diversification (positionKeys : List String) (newTicker : String)
    (maxPer : ℕ) : Bool :=
  match sectorOf newTicker with
  | none => true
  | some sec => positionKeys.countP (fun t => sectorOf t = some sec) < maxPer

/-! ### Portfolio tracker (`src/tracker.py`) -/
/-- One entry of `self.state['positions']`. -/
structure Position where
  shares : ℚ
  entry_price : ℚ
  entry_date : String
  quality_score : ℚ
deriving DecidableEq, Repr

/-- One entry of `self.state['trade_history']`.  The Python trade dicts do
not all carry the same keys, so the keys a given site omits are `none`:
BUY trades have no exit data and no reason; strategy-SELL trades have no
`reason` and no `cost`. -/
structure TradeRecord where
  type : String
  ticker : String
  shares : ℚ
  entry_price : ℚ
  entry_date : String
  exit_price : Option ℚ := none
  exit_date : Option String := none
  profit_loss : Option ℚ := none
  profit_loss_pct : Option ℚ := none
  reason : Option String := none
  cost : Option ℚ := none
  quality_score : Option ℚ := none
deriving DecidableEq, Repr

/-- The persistent portfolio state (`cash`, insertion-ordered `positions`
dict, append-only `trade_history`).  File persistence is an I/O side effect
outside this model. -/
structure PState where
  cash : ℚ
  positions : List (String × Position)
  trade_history : List TradeRecord
deriving DecidableEq, Repr

/-- The slice of a strategy signal dict that `process_signals` reads:
`signal['ticker']`, `signal['indicators']['price']` and
`signal.get('quality_score', 0)`. -/
structure TSignal where
  ticker : String
  price : ℚ
  quality_score : Option ℚ
deriving DecidableEq, Repr

def STOP_LOSS_PCT : ℚ := -10

def TAKE_PROFIT_PCT : ℚ := 25

def max_positions : ℕ := 10

def position_size : ℚ := 5000

/-- Remove a key from the positions dict (`del self.state['positions'][t]`). -/
def delPos (t : String) (positions : List (String × Position)) : List (String × Position) :=
  positions.filter (fun x => !(x.1 == t))

/-- Phase one of `_check_risk_management_trades`: walk the positions dict and
collect `(ticker, current_price, reason)` for every position whose
profit/loss percentage breaches the stop-loss or take-profit threshold.
Positions without a quoted current price are skipped. -/
def riskTriggers (positions : List (String × Position)) (prices : List (String × ℚ)) :
    List (String × ℚ × String) :=
  positions.filterMap fun x =>
    match lookupQ x.1 prices with
    | none => none
    | some cp =>
      let plPct := ((cp - x.2.entry_price) / x.2.entry_price) * 100
      if plPct ≤ STOP_LOSS_PCT then some (x.1, cp, "STOP-LOSS")
      else if plPct ≥ TAKE_PROFIT_PCT then some (x.1, cp, "TAKE-PROFIT")
      else none

/-- Phase two of `_check_risk_management_trades`: liquidate each collected
trigger — credit `shares * current_price`, append a SELL record carrying the
risk reason, delete the position.  Returns the new state and the SELL
records in execution order. -/
def execRisk (today : String) (st : PState) (trigs : List (String × ℚ × String)) :
    PState × List TradeRecord :=
  match trigs with
  | [] => (st, [])
  | (t, cp, why) :: rest =>
    match lookupQ t st.positions with
    | none => execRisk today st rest
    | some pos =>
      let entryValue := pos.entry_price * pos.shares
      let exitValue := cp * pos.shares
      let pl := exitValue - entryValue
      let trade : TradeRecord :=
        { type := "SELL", ticker := t, shares := pos.shares,
          entry_price := pos.entry_price, entry_date := pos.entry_date,
          exit_price := some cp, exit_date := some today,
          profit_loss := some pl, profit_loss_pct := some (pl / entryValue * 100),
          reason := some why }
      let st' : PState :=
        { cash := st.cash + exitValue, positions := delPos t st.positions,
          trade_history := st.trade_history ++ [trade] }
      ((execRisk today st' rest).1, trade :: (execRisk today st' rest).2)

/-- Step 2 of `process_signals`: strategy SELL signals.  A signal whose
ticker is held is liquidated at the signal's reported price; the appended
SELL record carries no `reason` key.  Unheld tickers are ignored. -/
def execSells (today : String) (st : PState) (sigs : List TSignal) :
    PState × List TradeRecord :=
  match sigs with
  | [] => (st, [])
  | s :: rest =>
    match lookupQ s.ticker st.positions with
    | none => execSells today st rest
    | some pos =>
      let entryValue := pos.entry_price * pos.shares
      let exitValue := s.price * pos.shares
      let pl := exitValue - entryValue
      let trade : TradeRecord :=
        { type := "SELL", ticker := s.ticker, shares := pos.shares,
          entry_price := pos.entry_price, entry_date := pos.entry_date,
          exit_price := some s.price, exit_date := some today,
          profit_loss := some pl, profit_loss_pct := some (pl / entryValue * 100) }
      let st' : PState :=
        { cash := st.cash + exitValue, positions := delPos s.ticker st.positions,
          trade_history := st.trade_history ++ [trade] }
      ((execSells today st' rest).1, trade :: (execSells today st' rest).2)

/-- The BUY loop of `process_signals` over the already-truncated candidate
list: skip tickers already held, skip tickers over the sector cap, stop
(`break`) as soon as cash drops below the fixed position size, otherwise buy
`position_size / price` fractional shares. -/
def execBuys (today : String) (st : PState) (sigs : List TSignal) :
    PState × List TradeRecord :=
  match sigs with
  | [] => (st, [])
  | s :: rest =>
    if (lookupQ s.ticker st.positions).isSome then execBuys today st rest
    else if !check_sector_diversification (st.positions.map (·.1)) s.ticker 3 then
      execBuys today st rest
    else if st.cash < position_size then (st, [])
    else
      let shares := position_size / s.price
      let cost := shares * s.price
      let pos : Position :=
        { shares := shares, entry_price := s.price, entry_date := today,
          quality_score := s.quality_score.getD 0 }
      let trade : TradeRecord :=
        { type := "BUY", ticker := s.ticker, shares := shares,
          entry_price := s.price, entry_date := today,
          cost := some cost, quality_score := some (s.quality_score.getD 0) }
      let st' : PState :=
        { cash := st.cash - cost, positions := st.positions ++ [(s.ticker, pos)],
          trade_history := st.trade_history ++ [trade] }
      ((execBuys today st' rest).1, trade :: (execBuys today st' rest).2)

/-- Models `Portfolio.process_signals(buy_signals, sell_signals, current_prices)`:
the risk-management pass, then the strategy-SELL pass, then the BUY pass
gated by free slots and cash, the candidate list truncated to
`available_slots`.  Returns the final state and the executed (sells, buys). -/
def process_signals (st : PState) (buySignals sellSignals : List TSignal)
    (prices : List (String × ℚ)) (today : String) :
    PState × List TradeRecord × List TradeRecord :=
  let r1 := execRisk today st (riskTriggers st.positions prices)
  let r2 := execSells today r1.1 sellSignals
  let availableSlots : ℤ := (max_positions : ℤ) - r2.1.positions.length
  let r3 :=
    if 0 < availableSlots ∧ position_size ≤ r2.1.cash then
      execBuys today r2.1 (buySignals.take availableSlots.toNat)
    else (r2.1, [])
  (r3.1, r1.2 ++ r2.2, r3.2)

/-- The slice of `Portfolio.get_summary` the claims are about (the
per-position detail list is presentation only). -/
structure Summary where
  cash : ℚ
  positions_value : ℚ
  total_value : ℚ
  total_return_pct : ℚ
  total_return_dollars : ℚ
  num_positions : ℕ
  realized_pl : ℚ
  total_trades : ℕ
deriving DecidableEq, Repr

def initial_value : ℚ := 100000

/-- Models `Portfolio.get_summary(current_prices)`: a pure read.  Positions are
valued at the supplied current price, falling back to the entry price;
returns are measured against the fixed `100000.0` constant. -/
def get_summary (st : PState) (prices : List (String × ℚ)) : Summary :=
  let pv := (st.positions.map fun x =>
    x.2.shares * ((lookupQ x.1 prices).getD x.2.entry_price)).sum
  let tv := st.cash + pv
  { cash := st.cash
    positions_value := pv
    total_value := tv
    total_return_pct := ((tv - initial_value) / initial_value) * 100
    total_return_dollars := tv - initial_value
    num_positions := st.positions.length
    realized_pl := (st.trade_history.map fun t =>
      if t.type = "SELL" then t.profit_loss.getD 0 else 0).sum
    total_trades := st.trade_history.length }

/-- Number of held tickers mapped to a given sector (the count taken by
`check_sector_diversification`). -/
def sectorCount (keys : List String) (sec : String) : ℕ :=
  keys.countP (fun t => sectorOf t = some sec)

/-- The sector-diversification invariant: no sector of the static mapping has
more than 3 held representatives. -/
def SectorCapOK (positions : List (String × Position)) : Prop :=
  ∀ sec : String, sectorCount (positions.map (·.1)) sec ≤ 3

def c2State : PState := ⟨6000, [], []⟩

def c2Buys : List TSignal := [⟨"ZZZ1", 100, none⟩, ⟨"ZZZ2", 100, none⟩]

def c3State : PState := ⟨100000, [], []⟩

def c3Buys : List TSignal :=
  [⟨"T0", 100, none⟩, ⟨"T1", 100, none⟩, ⟨"T2", 100, none⟩, ⟨"T3", 100, none⟩,
   ⟨"T4", 100, none⟩, ⟨"T5", 100, none⟩, ⟨"T6", 100, none⟩, ⟨"T7", 100, none⟩,
   ⟨"T8", 100, none⟩, ⟨"T9", 100, none⟩, ⟨"T10", 100, none⟩]

def c5State : PState := ⟨0, [("TEST1", ⟨10, 100, "2025-01-02", 0⟩)], []⟩

def c5Sell : TSignal := ⟨"TEST1", 50, none⟩

def c5wState : PState := ⟨0, [("TEST1", ⟨10, 100, "2025-01-02", 0⟩)], []⟩

def c7State : PState := ⟨100000, [], []⟩

def c7Buys : List TSignal :=
  [⟨"AAPL", 100, some 4⟩, ⟨"MSFT", 100, some 3⟩, ⟨"GOOGL", 100, some 2⟩, ⟨"META", 100, some 1⟩]

def c10State : PState := ⟨100000, [("AAPL", ⟨10, 200, "2025-01-02", 0⟩)], []⟩

/-! ### Concrete price series for the strategy claims -/
def mkBar (d c h l v : ℚ) : Bar := ⟨some d, c, h, l, v⟩

/-- Five bars whose volumes are 200,200,200,200,190: all within two standard
deviations of their mean 198 (std = sqrt 20, 2*std about 8.94, largest
deviation 8), yet the current volume sits below the mean. -/
def df5c : List Bar :=
  [mkBar 0 1 2 0 200, mkBar 1 1 2 0 200, mkBar 2 1 2 0 200,
   mkBar 3 1 2 0 200, mkBar 4 1 2 0 190]

/-- A run of 199 identical bars — one short of the SMA-200 window. -/
def df199 : List Bar := (List.range 199).map fun i => mkBar i 100 101 99 100

/-- A series of 200 bars with every indicator computable at the last row (non-flat
high/low range, so the stochastic is defined: raw %K = 50 throughout). -/
def df200 : List Bar := (List.range 200).map fun i => mkBar i 100 101 99 100

/-- A series of 200 bars engineered so the CAGR window starts 487 days before the last
bar at close 1 and ends at close 16: the exponent 365.25/487 is exactly 3/4
and the CAGR is exactly (16^(3/4) - 1) * 100 = 700. -/
def witDf : List Bar := (List.range 200).map fun i =>
  if i < 100 then mkBar i 1 2 0 100
  else if i < 199 then mkBar (513 + 4 * ((i : ℚ) - 100)) 1 2 0 100
  else mkBar 1000 16 17 15 100

/-- Two dated bars, start close 1, end close 0, 487 days apart. -/
def cagrCtrDf : List Bar := [⟨some 0, 1, 1, 1, 0⟩, ⟨some 487, 0, 0, 0, 0⟩]

/-- Two dated bars, start close 1, end close 16, 487 days apart. -/
def cagrWitDf : List Bar := [⟨some 0, 1, 1, 1, 0⟩, ⟨some 487, 16, 16, 16, 0⟩]

def df200ticker : Option String := none

/-! ### Helper lemmas -/
lemma lookupQ_mem {α : Type} {k : String} {l : List (String × α)} {v : α}
    (h : lookupQ k l = some v) : (k, v) ∈ l := by
  induction l with
  | nil => simp [lookupQ] at h
  | cons hd tl ih =>
    obtain ⟨k', v'⟩ := hd
    by_cases hk : k' = k
    · simp only [lookupQ, hk, if_pos rfl] at h
      cases h
      subst hk
      exact List.mem_cons_self _ _
    · simp only [lookupQ, if_neg hk] at h
      exact List.mem_cons_of_mem _ (ih h)

lemma delPos_sublist (t : String) (ps : List (String × Position)) :
    (delPos t ps).Sublist ps := List.filter_sublist ps

lemma delPos_mem {t : String} {ps : List (String × Position)} {x : String × Position}
    (h : x ∈ delPos t ps) : x ∈ ps := (delPos_sublist t ps).mem h

lemma delPos_length_le (t : String) (ps : List (String × Position)) :
    (delPos t ps).length ≤ ps.length := (delPos_sublist t ps).length_le

lemma riskTriggers_price_nonneg {positions : List (String × Position)}
    {prices : List (String × ℚ)} (h : ∀ x ∈ prices, 0 ≤ x.2) :
    ∀ x ∈ riskTriggers positions prices, 0 ≤ x.2.1 := by
  intro x hx
  simp only [riskTriggers, List.mem_filterMap] at hx
  obtain ⟨a, _, heq⟩ := hx
  cases hcp : lookupQ a.1 prices with
  | none => rw [hcp] at heq; simp at heq
  | some cp =>
    rw [hcp] at heq
    have hcpmem : 0 ≤ cp := h _ (lookupQ_mem hcp)
    simp only at heq
    split_ifs at heq <;> (cases heq; exact hcpmem)

lemma execRisk_cash (today : String) (trigs : List (String × ℚ × String)) (st : PState)
    (h1 : ∀ x ∈ st.positions, 0 ≤ x.2.shares) (h2 : ∀ x ∈ trigs, 0 ≤ x.2.1) :
    st.cash ≤ (execRisk today st trigs).1.cash ∧
    ∀ x ∈ (execRisk today st trigs).1.positions, 0 ≤ x.2.shares := by
  induction trigs generalizing st with
  | nil => exact ⟨le_refl _, h1⟩
  | cons hd rest ih =>
    obtain ⟨t, cp, why⟩ := hd
    cases hl : lookupQ t st.positions with
    | none =>
      simp only [execRisk, hl]
      exact ih st h1 (fun x hx => h2 x (List.mem_cons_of_mem _ hx))
    | some pos =>
      simp only [execRisk, hl]
      have hsh : 0 ≤ pos.shares := h1 _ (lookupQ_mem hl)
      have hcp : 0 ≤ cp := h2 _ (List.mem_cons_self _ _)
      have hst' : ∀ x ∈ delPos t st.positions, 0 ≤ x.2.shares :=
        fun x hx => h1 x (delPos_mem hx)
      have htl : ∀ x ∈ rest, 0 ≤ x.2.1 := fun x hx => h2 x (List.mem_cons_of_mem _ hx)
      refine ⟨le_trans ?_ (ih _ hst' htl).1, (ih _ hst' htl).2⟩
      have hmul : 0 ≤ cp * pos.shares := mul_nonneg hcp hsh
      show st.cash ≤ st.cash + cp * pos.shares
      linarith

lemma execSells_cash (today : String) (sigs : List TSignal) (st : PState)
    (h1 : ∀ x ∈ st.positions, 0 ≤ x.2.shares) (h2 : ∀ s ∈ sigs, 0 ≤ s.price) :
    st.cash ≤ (execSells today st sigs).1.cash ∧
    ∀ x ∈ (execSells today st sigs).1.positions, 0 ≤ x.2.shares := by
  induction sigs generalizing st with
  | nil => exact ⟨le_refl _, h1⟩
  | cons s rest ih =>
    cases hl : lookupQ s.ticker st.positions with
    | none =>
      simp only [execSells, hl]
      exact ih st h1 (fun x hx => h2 x (List.mem_cons_of_mem _ hx))
    | some pos =>
      simp only [execSells, hl]
      have hsh : 0 ≤ pos.shares := h1 _ (lookupQ_mem hl)
      have hcp : 0 ≤ s.price := h2 _ (List.mem_cons_self _ _)
      have hst' : ∀ x ∈ delPos s.ticker st.positions, 0 ≤ x.2.shares :=
        fun x hx => h1 x (delPos_mem hx)
      have htl : ∀ x ∈ rest, 0 ≤ x.price := fun x hx => h2 x (List.mem_cons_of_mem _ hx)
      refine ⟨le_trans ?_ (ih _ hst' htl).1, (ih _ hst' htl).2⟩
      have hmul : 0 ≤ s.price * pos.shares := mul_nonneg hcp hsh
      show st.cash ≤ st.cash + s.price * pos.shares
      linarith

lemma execBuys_cash (today : String) (sigs : List TSignal) (st : PState)
    (h : 0 ≤ st.cash) : 0 ≤ (execBuys today st sigs).1.cash := by
  induction sigs generalizing st with
  | nil => exact h
  | cons s rest ih =>
    simp only [execBuys]
    split_ifs with hheld hsec hcash
    · exact ih st h
    · exact ih st h
    · exact h
    · refine ih _ ?_
      have hge : position_size ≤ st.cash := not_lt.mp hcash
      simp only
      rcases eq_or_ne s.price 0 with hp | hp
      · simp [hp, position_size] at hge ⊢
        linarith
      · rw [div_mul_cancel₀ _ hp]
        linarith

lemma execBuys_trades (today : String) (sigs : List TSignal) (st : PState) :
    ∀ tr ∈ (execBuys today st sigs).2,
      tr.type = "BUY" ∧ tr.cost = some (tr.shares * tr.entry_price) ∧
      tr.shares = position_size / tr.entry_price := by
  induction sigs generalizing st with
  | nil => intro tr htr; simp [execBuys] at htr
  | cons s rest ih =>
    intro tr htr
    simp only [execBuys] at htr
    split_ifs at htr with hheld hsec hcash
    · exact ih st tr htr
    · exact ih st tr htr
    · simp at htr
    · rcases List.mem_cons.mp htr with heq | hmem
      · subst heq
        exact ⟨rfl, rfl, rfl⟩
      · exact ih _ tr hmem

lemma execRisk_len (today : String) (trigs : List (String × ℚ × String)) (st : PState) :
    (execRisk today st trigs).1.positions.length ≤ st.positions.length := by
  induction trigs generalizing st with
  | nil => exact le_refl _
  | cons hd rest ih =>
    obtain ⟨t, cp, why⟩ := hd
    cases hl : lookupQ t st.positions with
    | none => simp only [execRisk, hl]; exact ih st
    | some pos =>
      simp only [execRisk, hl]
      exact le_trans (ih _) (delPos_length_le _ _)

lemma execSells_len (today : String) (sigs : List TSignal) (st : PState) :
    (execSells today st sigs).1.positions.length ≤ st.positions.length := by
  induction sigs generalizing st with
  | nil => exact le_refl _
  | cons s rest ih =>
    cases hl : lookupQ s.ticker st.positions with
    | none => simp only [execSells, hl]; exact ih st
    | some pos =>
      simp only [execSells, hl]
      exact le_trans (ih _) (delPos_length_le _ _)

lemma execBuys_len (today : String) (sigs : List TSignal) (st : PState) :
    (execBuys today st sigs).1.positions.length ≤ st.positions.length + sigs.length := by
  induction sigs generalizing st with
  | nil => exact Nat.le_add_right _ _
  | cons s rest ih =>
    simp only [execBuys]
    split_ifs with hheld hsec hcash
    · exact le_trans (ih st) (by simp [Nat.add_le_add_left, Nat.le_succ_of_le])
    · exact le_trans (ih st) (by simp [Nat.add_le_add_left, Nat.le_succ_of_le])
    · simp
    · refine le_trans (ih _) ?_
      simp only [List.length_append, List.length_cons, List.length_nil]
      omega

lemma execRisk_history (today : String) (trigs : List (String × ℚ × String)) (st : PState) :
    (execRisk today st trigs).1.trade_history
      = st.trade_history ++ (execRisk today st trigs).2 := by
  induction trigs generalizing st with
  | nil => simp [execRisk]
  | cons hd rest ih =>
    obtain ⟨t, cp, why⟩ := hd
    cases hl : lookupQ t st.positions with
    | none => simp only [execRisk, hl]; exact ih st
    | some pos =>
      simp only [execRisk, hl]
      rw [ih _]
      simp

lemma execSells_history (today : String) (sigs : List TSignal) (st : PState) :
    (execSells today st sigs).1.trade_history
      = st.trade_history ++ (execSells today st sigs).2 := by
  induction sigs generalizing st with
  | nil => simp [execSells]
  | cons s rest ih =>
    cases hl : lookupQ s.ticker st.positions with
    | none => simp only [execSells, hl]; exact ih st
    | some pos =>
      simp only [execSells, hl]
      rw [ih _]
      simp

lemma execBuys_history (today : String) (sigs : List TSignal) (st : PState) :
    (execBuys today st sigs).1.trade_history
      = st.trade_history ++ (execBuys today st sigs).2 := by
  induction sigs generalizing st with
  | nil => simp [execBuys]
  | cons s rest ih =>
    simp only [execBuys]
    split_ifs with hheld hsec hcash
    · exact ih st
    · exact ih st
    · simp
    · rw [ih _]
      simp

lemma riskTriggers_reason {positions : List (String × Position)}
    {prices : List (String × ℚ)} :
    ∀ x ∈ riskTriggers positions prices, x.2.2 = "STOP-LOSS" ∨ x.2.2 = "TAKE-PROFIT" := by
  intro x hx
  simp only [riskTriggers, List.mem_filterMap] at hx
  obtain ⟨a, _, heq⟩ := hx
  cases hcp : lookupQ a.1 prices with
  | none => rw [hcp] at heq; simp at heq
  | some cp =>
    rw [hcp] at heq
    simp only at heq
    split_ifs at heq <;> (cases heq; simp)

lemma execRisk_sells (today : String) (trigs : List (String × ℚ × String)) (st : PState)
    (hwhy : ∀ x ∈ trigs, x.2.2 = "STOP-LOSS" ∨ x.2.2 = "TAKE-PROFIT") :
    ∀ tr ∈ (execRisk today st trigs).2,
      tr.type = "SELL" ∧ tr.exit_price.isSome ∧ tr.exit_date = some today ∧
      tr.profit_loss.isSome ∧ tr.profit_loss_pct.isSome ∧
      (tr.reason = some "STOP-LOSS" ∨ tr.reason = some "TAKE-PROFIT" ∨ tr.reason = none) := by
  induction trigs generalizing st with
  | nil => intro tr htr; simp [execRisk] at htr
  | cons hd rest ih =>
    obtain ⟨t, cp, why⟩ := hd
    intro tr htr
    have hwtl : ∀ x ∈ rest, x.2.2 = "STOP-LOSS" ∨ x.2.2 = "TAKE-PROFIT" :=
      fun x hx => hwhy x (List.mem_cons_of_mem _ hx)
    cases hl : lookupQ t st.positions with
    | none =>
      simp only [execRisk, hl] at htr
      exact ih st hwtl tr htr
    | some pos =>
      simp only [execRisk, hl] at htr
      rcases List.mem_cons.mp htr with heq | hmem
      · subst heq
        refine ⟨rfl, rfl, rfl, rfl, rfl, ?_⟩
        rcases hwhy _ (List.mem_cons_self _ _) with h | h <;> simp only at h <;>
          rw [h] <;> simp
      · exact ih _ hwtl tr hmem

lemma execSells_records (today : String) (sigs : List TSignal) (st : PState) :
    ∀ tr ∈ (execSells today st sigs).2,
      tr.type = "SELL" ∧ tr.exit_price.isSome ∧ tr.exit_date = some today ∧
      tr.profit_loss.isSome ∧ tr.profit_loss_pct.isSome ∧ tr.reason = none := by
  induction sigs generalizing st with
  | nil => intro tr htr; simp [execSells] at htr
  | cons s rest ih =>
    intro tr htr
    cases hl : lookupQ s.ticker st.positions with
    | none =>
      simp only [execSells, hl] at htr
      exact ih st tr htr
    | some pos =>
      simp only [execSells, hl] at htr
      rcases List.mem_cons.mp htr with heq | hmem
      · subst heq
        exact ⟨rfl, rfl, rfl, rfl, rfl, rfl⟩
      · exact ih _ tr hmem

lemma sectorCount_delPos_le (t : String) (ps : List (String × Position)) (sec : String) :
    sectorCount ((delPos t ps).map (·.1)) sec ≤ sectorCount (ps.map (·.1)) sec :=
  List.Sublist.countP_le _ ((delPos_sublist t ps).map _)

lemma execRisk_sector (today : String) (trigs : List (String × ℚ × String)) (st : PState)
    (h : SectorCapOK st.positions) : SectorCapOK (execRisk today st trigs).1.positions := by
  induction trigs generalizing st with
  | nil => exact h
  | cons hd rest ih =>
    obtain ⟨t, cp, why⟩ := hd
    cases hl : lookupQ t st.positions with
    | none => simp only [execRisk, hl]; exact ih st h
    | some pos =>
      simp only [execRisk, hl]
      exact ih _ (fun sec => le_trans (sectorCount_delPos_le t _ sec) (h sec))

lemma execSells_sector (today : String) (sigs : List TSignal) (st : PState)
    (h : SectorCapOK st.positions) : SectorCapOK (execSells today st sigs).1.positions := by
  induction sigs generalizing st with
  | nil => exact h
  | cons s rest ih =>
    cases hl : lookupQ s.ticker st.positions with
    | none => simp only [execSells, hl]; exact ih st h
    | some pos =>
      simp only [execSells, hl]
      exact ih _ (fun sec => le_trans (sectorCount_delPos_le _ _ sec) (h sec))

lemma sectorCount_snoc_map (ps : List (String × Position)) (t : String) (p : Position)
    (sec : String) :
    sectorCount ((ps ++ [(t, p)]).map (·.1)) sec
      = sectorCount (ps.map (·.1)) sec + (if sectorOf t = some sec then 1 else 0) := by
  simp only [sectorCount, List.map_append, List.countP_append, List.map_cons, List.map_nil,
    List.countP_cons, List.countP_nil]
  by_cases h : sectorOf t = some sec <;> simp [h]

lemma execBuys_sector (today : String) (sigs : List TSignal) (st : PState)
    (h : SectorCapOK st.positions) : SectorCapOK (execBuys today st sigs).1.positions := by
  induction sigs generalizing st with
  | nil => exact h
  | cons s rest ih =>
    simp only [execBuys]
    split_ifs with hheld hsec hcash
    · exact ih st h
    · exact ih st h
    · exact h
    · refine ih _ ?_
      intro sec
      show sectorCount (((st.positions ++ [(s.ticker, _)] : List (String × Position))).map (fun x => x.1)) sec ≤ 3
      rw [sectorCount_snoc_map]
      have hck : check_sector_diversification (st.positions.map (·.1)) s.ticker 3 = true := by
        revert hsec
        cases check_sector_diversification (st.positions.map (·.1)) s.ticker 3 <;> simp
      by_cases hst : sectorOf s.ticker = some sec
      · rw [if_pos hst]
        have : sectorCount (st.positions.map (·.1)) sec < 3 := by
          simp only [check_sector_diversification, hst] at hck
          simpa [sectorCount] using hck
        omega
      · rw [if_neg hst]
        simpa using h sec

/-! ### Claim theorems about the portfolio tracker -/
/-- C2: for every portfolio state with non-negative cash, non-negative
position sizes and non-negative quoted prices, `process_signals` never
drives cash negative; every executed BUY debits exactly `shares * price`
with `shares = position_size / price` (a candidate the cash check rejects is
skipped entirely, which is the `break` branch of the loop). -/
theorem process_signals_cash_nonneg (st : PState) (buySignals sellSignals : List TSignal)
    (prices : List (String × ℚ)) (today : String)
    (hcash : 0 ≤ st.cash)
    (hpos : ∀ x ∈ st.positions, 0 ≤ x.2.shares)
    (hprices : ∀ x ∈ prices, 0 ≤ x.2)
    (hsell : ∀ s ∈ sellSignals, 0 ≤ s.price) :
    0 ≤ (process_signals st buySignals sellSignals prices today).1.cash ∧
    ∀ tr ∈ (process_signals st buySignals sellSignals prices today).2.2,
      tr.cost = some (tr.shares * tr.entry_price) ∧
      tr.shares = position_size / tr.entry_price := by
  obtain ⟨hc1, hp1⟩ := execRisk_cash today (riskTriggers st.positions prices) st hpos
    (riskTriggers_price_nonneg hprices)
  obtain ⟨hc2, _⟩ := execSells_cash today sellSignals
    (execRisk today st (riskTriggers st.positions prices)).1 hp1 hsell
  have hc : 0 ≤ (execSells today (execRisk today st
      (riskTriggers st.positions prices)).1 sellSignals).1.cash :=
    le_trans hcash (le_trans hc1 hc2)
  simp only [process_signals]
  split_ifs with hbuy
  · refine ⟨execBuys_cash today _ _ hc, ?_⟩
    intro tr htr
    exact ⟨(execBuys_trades today _ _ tr htr).2.1, (execBuys_trades today _ _ tr htr).2.2⟩
  · refine ⟨hc, ?_⟩
    intro tr htr
    simp at htr

/-- C2 witness: with 6000 cash and two 100-priced candidates the first buy
debits exactly 5000 and the second is skipped by the cash check, leaving
1000. -/
theorem process_signals_cash_nonneg_witness :
    ((0:ℚ) ≤ c2State.cash ∧
      (process_signals c2State c2Buys [] [] "2025-06-02").1.cash = 1000 ∧
      (process_signals c2State c2Buys [] [] "2025-06-02").2.2.length = 1) ∧
    (0 ≤ (process_signals c2State c2Buys [] [] "2025-06-02").1.cash ∧
      ∀ tr ∈ (process_signals c2State c2Buys [] [] "2025-06-02").2.2,
        tr.cost = some (tr.shares * tr.entry_price) ∧
        tr.shares = position_size / tr.entry_price) :=
  ⟨⟨by with_unfolding_all decide, by with_unfolding_all rfl, by with_unfolding_all rfl⟩,
    process_signals_cash_nonneg c2State c2Buys [] [] "2025-06-02"
      (by with_unfolding_all decide) (by with_unfolding_all decide)
      (by with_unfolding_all decide) (by with_unfolding_all decide)⟩

/-- C3: starting from at most `max_positions` (10) held positions, a
`process_signals` call leaves at most 10 positions, however many BUY signals
were supplied: the BUY pass truncates its candidate list to the free slots
and is skipped entirely when there are none. -/
theorem process_signals_position_cap (st : PState) (buySignals sellSignals : List TSignal)
    (prices : List (String × ℚ)) (today : String)
    (h : st.positions.length ≤ max_positions) :
    (process_signals st buySignals sellSignals prices today).1.positions.length
      ≤ max_positions := by
  have h1 := execRisk_len today (riskTriggers st.positions prices) st
  have h2 := execSells_len today sellSignals (execRisk today st
    (riskTriggers st.positions prices)).1
  simp only [process_signals]
  split_ifs with hbuy
  · have h3 := execBuys_len today
      (buySignals.take ((max_positions - (execSells today (execRisk today st
        (riskTriggers st.positions prices)).1 sellSignals).1.positions.length : ℤ).toNat))
      (execSells today (execRisk today st (riskTriggers st.positions prices)).1 sellSignals).1
    have h4 : (buySignals.take ((max_positions - (execSells today (execRisk today st
        (riskTriggers st.positions prices)).1 sellSignals).1.positions.length : ℤ).toNat)).length
        ≤ ((max_positions - (execSells today (execRisk today st
        (riskTriggers st.positions prices)).1 sellSignals).1.positions.length : ℤ)).toNat :=
      List.length_take_le _ _
    obtain ⟨hslots, -⟩ := hbuy
    simp only [max_positions] at *
    omega
  · simp only [max_positions] at *
    omega

/-- C3 witness: 11 buy candidates on an empty portfolio execute exactly 10
buys and the position count stays at the cap. -/
theorem process_signals_position_cap_witness :
    (c3State.positions.length ≤ max_positions ∧
      (process_signals c3State c3Buys [] [] "2025-06-02").1.positions.length = 10 ∧
      (process_signals c3State c3Buys [] [] "2025-06-02").2.2.length = 10) ∧
    (process_signals c3State c3Buys [] [] "2025-06-02").1.positions.length ≤ max_positions :=
  ⟨⟨by with_unfolding_all decide, by with_unfolding_all rfl, by with_unfolding_all rfl⟩,
    process_signals_position_cap c3State c3Buys [] [] "2025-06-02"
      (by with_unfolding_all decide)⟩

/-- C5 counterexample: a strategy-SELL trade record carries no `reason`
field at all — the claim that every SELL record has a reason (STOP-LOSS,
TAKE-PROFIT, or a strategy-sell reason) fails on the very first strategy
sell. -/
theorem strategy_sell_lacks_reason :
    ((process_signals c5State [] [c5Sell] [] "2025-06-02").2.1.map (fun t => t.type))
      = ["SELL"] ∧
    ((process_signals c5State [] [c5Sell] [] "2025-06-02").2.1.map (fun t => t.reason))
      = [none] := by
  constructor <;> with_unfolding_all rfl

/-- C5 amended: every trade record appended by `process_signals` lands at the
end of `trade_history` (sells before buys); every SELL record — risk pass or
strategy pass — carries `exit_price`, `exit_date`, `profit_loss` and
`profit_loss_pct`, but only risk-management sells carry a `reason`
(STOP-LOSS or TAKE-PROFIT); strategy sells have none. -/
theorem process_signals_sell_record_fields (st : PState)
    (buySignals sellSignals : List TSignal) (prices : List (String × ℚ)) (today : String) :
    (process_signals st buySignals sellSignals prices today).1.trade_history
      = st.trade_history ++ (process_signals st buySignals sellSignals prices today).2.1
        ++ (process_signals st buySignals sellSignals prices today).2.2 ∧
    ∀ tr ∈ (process_signals st buySignals sellSignals prices today).2.1,
      tr.type = "SELL" ∧ tr.exit_price.isSome ∧ tr.exit_date = some today ∧
      tr.profit_loss.isSome ∧ tr.profit_loss_pct.isSome ∧
      (tr.reason = some "STOP-LOSS" ∨ tr.reason = some "TAKE-PROFIT" ∨ tr.reason = none) := by
  have hh1 := execRisk_history today (riskTriggers st.positions prices) st
  have hh2 := execSells_history today sellSignals
    (execRisk today st (riskTriggers st.positions prices)).1
  constructor
  · simp only [process_signals]
    split_ifs with hbuy
    · rw [execBuys_history, hh2, hh1]
      simp [List.append_assoc]
    · rw [hh2, hh1]
      simp [List.append_assoc]
  · intro tr htr
    simp only [process_signals] at htr
    rcases List.mem_append.mp htr with hr | hs
    · exact execRisk_sells today _ st riskTriggers_reason tr hr
    · have := execSells_records today sellSignals _ tr hs
      exact ⟨this.1, this.2.1, this.2.2.1, this.2.2.2.1, this.2.2.2.2.1,
        Or.inr (Or.inr this.2.2.2.2.2)⟩

/-- C5 witness: concrete instance of the amended statement — one
take-profit risk sell (price 130 on a 100 entry) is appended to the history
and carries the TAKE-PROFIT reason together with all exit fields. -/
theorem process_signals_sell_record_fields_witness :
    ((process_signals c5wState [] [] [("TEST1", 130)] "2025-06-02").1.trade_history
      = c5wState.trade_history
        ++ (process_signals c5wState [] [] [("TEST1", 130)] "2025-06-02").2.1
        ++ (process_signals c5wState [] [] [("TEST1", 130)] "2025-06-02").2.2) ∧
    ((process_signals c5wState [] [] [("TEST1", 130)] "2025-06-02").2.1.map
      (fun t => t.reason)) = [some "TAKE-PROFIT"] :=
  ⟨(process_signals_sell_record_fields c5wState [] [] [("TEST1", 130)] "2025-06-02").1,
    by with_unfolding_all rfl⟩

/-- C7: if no known sector holds more than `max_per_sector = 3` positions
before a `process_signals` call, none does afterwards either — the BUY loop
consults `check_sector_diversification` before every purchase, and tickers
outside `SECTOR_MAPPING` are never counted. -/
theorem process_signals_sector_cap (st : PState) (buySignals sellSignals : List TSignal)
    (prices : List (String × ℚ)) (today : String)
    (h : SectorCapOK st.positions) :
    SectorCapOK (process_signals st buySignals sellSignals prices today).1.positions := by
  have h1 := execRisk_sector today (riskTriggers st.positions prices) st h
  have h2 := execSells_sector today sellSignals _ h1
  simp only [process_signals]
  split_ifs with hbuy
  · exact execBuys_sector today _ _ h2
  · exact h2

/-- C7 witness: four BUY signals that all map to Technology, ample cash and
slots — exactly the first three execute, the fourth is skipped by the
sector cap, and the invariant holds afterwards. -/
theorem process_signals_sector_cap_witness :
    (SectorCapOK c7State.positions ∧
      ((process_signals c7State c7Buys [] [] "2025-06-02").2.2.map (fun t => t.ticker))
        = ["AAPL", "MSFT", "GOOGL"]) ∧
    SectorCapOK (process_signals c7State c7Buys [] [] "2025-06-02").1.positions :=
  ⟨⟨fun _ => by simp [sectorCount, c7State], by with_unfolding_all rfl⟩,
    process_signals_sector_cap c7State c7Buys [] [] "2025-06-02"
      (fun _ => by simp [sectorCount, c7State])⟩

/-- C9: `get_summary` values positions at the supplied price (entry price
when absent), adds cash, measures returns against the fixed 100000 initial
capital — and on the spec's concrete book (cash 50000, 10 shares at entry
100 marked 105, 20 shares at entry 50 marked 55) reports exactly 52150.
The call is a pure read: it takes the state and returns only a `Summary`. -/
theorem get_summary_spec :
    (∀ (st : PState) (prices : List (String × ℚ)),
      (get_summary st prices).positions_value
        = (st.positions.map fun x =>
            x.2.shares * ((lookupQ x.1 prices).getD x.2.entry_price)).sum ∧
      (get_summary st prices).total_value = st.cash + (get_summary st prices).positions_value ∧
      (get_summary st prices).total_return_dollars
        = (get_summary st prices).total_value - initial_value ∧
      (get_summary st prices).total_return_pct
        = (((get_summary st prices).total_value - initial_value) / initial_value) * 100 ∧
      (get_summary st prices).cash = st.cash ∧
      (get_summary st prices).num_positions = st.positions.length) ∧
    (get_summary ⟨50000, [("TEST1", ⟨10, 100, "2025-01-02", 0⟩),
        ("TEST2", ⟨20, 50, "2025-01-02", 0⟩)], []⟩
      [("TEST1", 105), ("TEST2", 55)]).total_value = 52150 := by
  constructor
  · intro st prices
    exact ⟨rfl, rfl, rfl, rfl, rfl, rfl⟩
  · with_unfolding_all rfl

/-- C10: no same-cycle cooldown — a held ticker flagged SELL is liquidated
in the strategy-SELL pass and re-bought in the BUY pass of the same
`process_signals` call, re-entering `positions` at the new price. -/
theorem same_cycle_rebuy :
    ((process_signals c10State [⟨"AAPL", 210, some 5⟩] [⟨"AAPL", 210, none⟩] [] "2025-06-02").2.1.map
      (fun t => t.ticker)) = ["AAPL"] ∧
    ((process_signals c10State [⟨"AAPL", 210, some 5⟩] [⟨"AAPL", 210, none⟩] [] "2025-06-02").2.2.map
      (fun t => t.ticker)) = ["AAPL"] ∧
    lookupQ "AAPL" (process_signals c10State [⟨"AAPL", 210, some 5⟩]
        [⟨"AAPL", 210, none⟩] [] "2025-06-02").1.positions
      = some ⟨500/21, 210, "2025-06-02", 5⟩ ∧
    (process_signals c10State [⟨"AAPL", 210, some 5⟩] [⟨"AAPL", 210, none⟩] [] "2025-06-02").1.cash
      = 97100 := by
  refine ⟨?_, ?_, ?_, ?_⟩ <;> with_unfolding_all rfl

/-! ### Helper lemmas for the real-valued indicator pieces -/
lemma volVar_nonneg (df : List Bar) : 0 ≤ volVar df := by
  rw [volVar]
  apply div_nonneg _ (by norm_num)
  apply List.sum_nonneg
  intro x hx
  obtain ⟨v, -, rfl⟩ := List.mem_map.mp hx
  exact sq_nonneg _

lemma abs_le_two_sqrt_iff (x q : ℝ) (hq : 0 ≤ q) :
    |x| ≤ 2 * Real.sqrt q ↔ x ^ 2 ≤ 4 * q := by
  constructor
  · intro h
    have h1 : |x| ^ 2 ≤ (2 * Real.sqrt q) ^ 2 :=
      pow_le_pow_left₀ (abs_nonneg x) h 2
    rw [sq_abs, mul_pow, Real.sq_sqrt hq] at h1
    linarith
  · intro h
    rw [← Real.sqrt_sq_eq_abs]
    refine le_trans (Real.sqrt_le_sqrt h) ?_
    rw [show (4:ℝ) * q = 2 ^ 2 * q by norm_num, Real.sqrt_mul (by norm_num) q,
      Real.sqrt_sq (by norm_num)]

/-- The two-standard-deviation test of `check_volume_consistency`, with the
square root eliminated: an executable rational inequality. -/
lemma volConsistent_iff (df : List Bar) :
    volConsistent df ↔
      (5 ≤ df.length ∧ ∀ v ∈ volWindow df, (v - volMean df) ^ 2 ≤ 4 * volVar df) := by
  unfold volConsistent
  refine and_congr_right fun _ => forall₂_congr fun v hv => ?_
  rw [volStd, abs_le_two_sqrt_iff _ _ (by exact_mod_cast volVar_nonneg df)]
  rw [show ((v:ℝ) - (volMean df : ℝ)) = (((v - volMean df : ℚ) : ℝ)) by push_cast; ring]
  rw [show ((4:ℝ) * (volVar df : ℝ)) = (((4 * volVar df : ℚ) : ℝ)) by push_cast; ring]
  constructor
  · intro h
    exact_mod_cast h
  · intro h
    exact_mod_cast h

lemma calculate_cagr_eq_zero (df : List Bar) (years : ℚ)
    (h : df.length < 2 ∨ (usableBars df).length < 2 ∨
      ((cagrDays df years : ℚ) / (1461/4) ≤ 0 ∨ cagrStart df years ≤ 0)) :
    calculate_cagr df years = 0 := by
  simp only [calculate_cagr]
  split_ifs with g1 g2 g3 <;> try rfl
  rcases h with h | h | h
  · exact absurd h g1
  · exact absurd h g2
  · exact absurd h g3

lemma calculate_cagr_formula (df : List Bar) (years : ℚ)
    (h1 : ¬ df.length < 2) (h2 : ¬ (usableBars df).length < 2)
    (h3 : ¬ ((cagrDays df years : ℚ) / (1461/4) ≤ 0 ∨ cagrStart df years ≤ 0)) :
    calculate_cagr df years
      = (Real.rpow ((cagrEnd df years / cagrStart df years : ℚ) : ℝ)
          ((1 / ((cagrDays df years : ℚ) / (1461/4)) : ℚ) : ℝ) - 1) * 100 := by
  simp only [calculate_cagr]
  rw [if_neg h1, if_neg h2, if_neg h3]

lemma rpow_sixteen : Real.rpow (16 : ℝ) ((3:ℝ)/4) = 8 := by
  have h16 : (16:ℝ) = (2:ℝ) ^ ((4:ℕ) : ℝ) := by
    rw [Real.rpow_natCast]
    norm_num
  rw [show Real.rpow (16:ℝ) ((3:ℝ)/4) = (16:ℝ) ^ ((3:ℝ)/4) from rfl, h16,
    ← Real.rpow_mul (by norm_num : (0:ℝ) ≤ 2)]
  rw [show ((4:ℕ) : ℝ) * ((3:ℝ)/4) = ((3:ℕ) : ℝ) by push_cast; ring]
  rw [Real.rpow_natCast]
  norm_num

lemma witDf_cagr : calculate_cagr witDf 2 = 700 := by
  have hs : cagrStart witDf 2 = 1 := by with_unfolding_all rfl
  have he : cagrEnd witDf 2 = 16 := by with_unfolding_all rfl
  have hd : cagrDays witDf 2 = 487 := by with_unfolding_all rfl
  rw [calculate_cagr_formula witDf 2 (by decide)
    (by with_unfolding_all decide)
    (by rw [hd, hs]; norm_num), hs, he, hd]
  rw [show ((16 / 1 : ℚ) : ℝ) = 16 by norm_num]
  rw [show ((1 / (((487:ℤ) : ℚ) / (1461/4)) : ℚ) : ℝ) = (3:ℝ)/4 by norm_num]
  rw [rpow_sixteen]
  norm_num

/-! ### Claim theorems about `calculate_cagr` -/
/-- C6 (amended): `calculate_cagr` returns 0 when there are fewer than 2
usable points, when the *start* price is non-positive, or when the elapsed
time is non-positive; otherwise it returns
`((end/start) ^ (365.25/actual_days) - 1) * 100` over the trailing-2-year
window (with full-series fallback) — including when the end price is
non-positive, which the source does not guard. -/
theorem calculate_cagr_spec (df : List Bar) :
    ((usableBars df).length < 2 → calculate_cagr df 2 = 0) ∧
    (cagrStart df 2 ≤ 0 → calculate_cagr df 2 = 0) ∧
    (cagrDays df 2 ≤ 0 → calculate_cagr df 2 = 0) ∧
    (2 ≤ (usableBars df).length → 0 < cagrStart df 2 → 0 < cagrDays df 2 →
      calculate_cagr df 2
        = (Real.rpow ((cagrEnd df 2 / cagrStart df 2 : ℚ) : ℝ)
            ((((1461:ℚ)/4) / ((cagrDays df 2 : ℤ) : ℚ) : ℚ) : ℝ) - 1) * 100) := by
  refine ⟨fun h => calculate_cagr_eq_zero df 2 (Or.inr (Or.inl h)),
    fun h => calculate_cagr_eq_zero df 2 (Or.inr (Or.inr (Or.inr h))),
    fun h => ?_, fun hu hs hd => ?_⟩
  · refine calculate_cagr_eq_zero df 2 (Or.inr (Or.inr (Or.inl ?_)))
    have hq : ((cagrDays df 2 : ℤ) : ℚ) ≤ 0 := by exact_mod_cast h
    exact div_nonpos_of_nonpos_of_nonneg hq (by norm_num)
  · have h1 : ¬ df.length < 2 := by
      have := List.length_filter_le (fun b => b.date.isSome) df
      simp only [usableBars] at hu
      omega
    have h2 : ¬ (usableBars df).length < 2 := by omega
    have h3 : ¬ ((cagrDays df 2 : ℚ) / (1461/4) ≤ 0 ∨ cagrStart df 2 ≤ 0) := by
      push_neg
      constructor
      · apply div_pos _ (by norm_num)
        exact_mod_cast hd
      · exact hs
    rw [calculate_cagr_formula df 2 h1 h2 h3]
    congr 2
    rw [one_div_div]

/-- C6 counterexample: a series whose end close is 0 (non-positive) with a
positive start and positive elapsed time returns -100, not the 0.0 the
claim demands — the source only guards the start price. -/
theorem calculate_cagr_end_price_ctrex :
    cagrEnd cagrCtrDf 2 = 0 ∧ calculate_cagr cagrCtrDf 2 = -100 := by
  have hs : cagrStart cagrCtrDf 2 = 1 := by with_unfolding_all rfl
  have he : cagrEnd cagrCtrDf 2 = 0 := by with_unfolding_all rfl
  have hd : cagrDays cagrCtrDf 2 = 487 := by with_unfolding_all rfl
  refine ⟨he, ?_⟩
  rw [calculate_cagr_formula cagrCtrDf 2 (by decide)
    (by with_unfolding_all decide)
    (by rw [hd, hs]; norm_num), hs, he, hd]
  rw [show ((0 / 1 : ℚ) : ℝ) = 0 by norm_num]
  rw [show ((1 / (((487:ℤ) : ℚ) / (1461/4)) : ℚ) : ℝ) = (3:ℝ)/4 by norm_num]
  rw [show Real.rpow (0:ℝ) ((3:ℝ)/4) = 0 from Real.zero_rpow (by norm_num)]
  norm_num

/-- C6 witness: on two bars 487 days apart with closes 1 and 16 the formula
branch fires and the CAGR is exactly 700. -/
theorem calculate_cagr_spec_witness :
    (2 ≤ (usableBars cagrWitDf).length ∧ 0 < cagrStart cagrWitDf 2 ∧
      0 < cagrDays cagrWitDf 2) ∧
    calculate_cagr cagrWitDf 2 = 700 := by
  have hs : cagrStart cagrWitDf 2 = 1 := by with_unfolding_all rfl
  have he : cagrEnd cagrWitDf 2 = 16 := by with_unfolding_all rfl
  have hd : cagrDays cagrWitDf 2 = 487 := by with_unfolding_all rfl
  have hu : 2 ≤ (usableBars cagrWitDf).length := by with_unfolding_all decide
  refine ⟨⟨hu, by rw [hs]; norm_num, by rw [hd]; norm_num⟩, ?_⟩
  rw [(calculate_cagr_spec cagrWitDf).2.2.2 hu (by rw [hs]; norm_num) (by rw [hd]; norm_num),
    hs, he, hd]
  rw [show ((16 / 1 : ℚ) : ℝ) = 16 by norm_num]
  rw [show ((((1461:ℚ)/4) / ((487:ℤ) : ℚ) : ℚ) : ℝ) = (3:ℝ)/4 by norm_num]
  rw [rpow_sixteen]
  norm_num

/-! ### Claim theorems about the volume-consistency gate -/
/-- C4 counterexample: on `df5c` the volume window 200,200,200,200,190
passes the two-standard-deviation test (the checklist gate), yet the
current volume 190 is below the 5-day mean 198 — `current_vs_avg` (the
value `analyze_stock` binds to `volume_increasing`) is false, refuting the
claimed "AND current day above the 5-day mean" reading of the gate. -/
theorem volume_gate_without_current_above_mean :
    volConsistent df5c ∧ volCurrentVsAvg df5c = false := by
  constructor
  · rw [volConsistent_iff]
    exact ⟨by decide, by with_unfolding_all decide⟩
  · with_unfolding_all rfl

/-- C4 (amended): the volume-consistency checklist gate is exactly the
two-standard-deviation test over the trailing 5 volumes — the current-above-
mean comparison is returned separately (as `volume_increasing`) and is not
part of the gate.  What survives of the claim's consequence: when the gate
itself fails, `analyze_stock` cannot return BUY. -/
theorem volume_consistency_gate (df : List Bar) (ticker : Option String) (fri : Bool)
    (h5 : 5 ≤ df.length) :
    (volConsistent df ↔ ∀ v ∈ volWindow df, (v - volMean df) ^ 2 ≤ 4 * volVar df) ∧
    (¬ volConsistent df → (analyze_stock df ticker fri).signal ≠ Signal.BUY) := by
  constructor
  · rw [volConsistent_iff]
    exact and_iff_right h5
  · intro hnc
    simp only [analyze_stock]
    split_ifs with g1 g2 g3 gcp gsell gps gfr
    · simp
    · simp
    · simp
    · exact absurd gcp.2.2.2.2.2.1 hnc
    · simp
    · simp
    · simp
    · simp

/-- C4 witness: the amended statement instantiated on the 5-bar window. -/
theorem volume_consistency_gate_witness :
    (5 ≤ df5c.length) ∧
    ((volConsistent df5c ↔ ∀ v ∈ volWindow df5c, (v - volMean df5c) ^ 2 ≤ 4 * volVar df5c) ∧
      (¬ volConsistent df5c → (analyze_stock df5c none false).signal ≠ Signal.BUY)) :=
  ⟨by decide, volume_consistency_gate df5c none false (by decide)⟩

/-! ### Claim theorems about `analyze_stock` -/
/-- C1: with at least 200 bars, computable SMA-200 and stochastic %K, and
CAGR at or above the 15% floor, `analyze_stock` answers BUY exactly when all
seven checklist gates pass; any failed gate yields SELL or HOLD, never BUY;
and a full pass multiplies the raw quality score `cagr * (k/100)` by
exactly 1.5. -/
theorem analyze_stock_checklist (df : List Bar) (ticker : Option String) (fri : Bool)
    (k : ℚ)
    (h200 : smaPeriod ≤ df.length)
    (hsma : (sma200last df).isSome = true)
    (hk : stochKlast df = some k)
    (hcagr : (minCagr : ℝ) ≤ calculate_cagr df 2) :
    ((analyze_stock df ticker fri).signal = Signal.BUY ↔ checklistPass df ticker) ∧
    (¬ checklistPass df ticker → (analyze_stock df ticker fri).signal = Signal.SELL ∨
      (analyze_stock df ticker fri).signal = Signal.HOLD) ∧
    (checklistPass df ticker → (analyze_stock df ticker fri).quality_score
      = some (1.5 * (calculate_cagr df 2 * ((k : ℚ) : ℝ) / 100))) := by
  have g1 : ¬ (df.length < smaPeriod) := not_lt.mpr h200
  have g2 : ¬ (sma200last df = none ∨ stochKlast df = none) := by
    rintro (h | h)
    · rw [h] at hsma
      simp at hsma
    · rw [hk] at h
      simp at h
  have g3 : ¬ (calculate_cagr df 2 < (minCagr : ℝ)) := not_lt.mpr hcagr
  have hq : rawQuality df = calculate_cagr df 2 * ((k : ℚ) : ℝ) / 100 := by
    simp only [rawQuality, hk]
    ring
  simp only [analyze_stock]
  rw [if_neg g1, if_neg g2, if_neg g3]
  by_cases hcp : checklistPass df ticker
  · rw [if_pos hcp]
    refine ⟨⟨fun _ => hcp, fun _ => rfl⟩, fun h => absurd hcp h, fun _ => ?_⟩
    show some (rawQuality df * 1.5) = _
    rw [hq]
    congr 1
    ring
  · rw [if_neg hcp]
    refine ⟨⟨fun hbuy => ?_, fun hcp' => absurd hcp' hcp⟩,
      fun _ => ?_, fun hcp' => absurd hcp' hcp⟩
    · split_ifs at hbuy
    · split_ifs <;> simp

/-- C1 witness: `witDf` has 200 bars, SMA-200 and stochastic %K defined
(%K = 1100/17) and CAGR exactly 700 ≥ 15, so the checklist equivalence
holds on it. -/
theorem analyze_stock_checklist_witness :
    (smaPeriod ≤ witDf.length ∧ (sma200last witDf).isSome = true ∧
      stochKlast witDf = some (1100/17) ∧ (minCagr : ℝ) ≤ calculate_cagr witDf 2) ∧
    (((analyze_stock witDf none false).signal = Signal.BUY ↔ checklistPass witDf none) ∧
      (¬ checklistPass witDf none → (analyze_stock witDf none false).signal = Signal.SELL ∨
        (analyze_stock witDf none false).signal = Signal.HOLD) ∧
      (checklistPass witDf none → (analyze_stock witDf none false).quality_score
        = some (1.5 * (calculate_cagr witDf 2 * (((1100:ℚ)/17 : ℚ) : ℝ) / 100)))) := by
  have hk : stochKlast witDf = some (1100/17) := by with_unfolding_all rfl
  have hsma : (sma200last witDf).isSome = true := by with_unfolding_all rfl
  have hcagr : (minCagr : ℝ) ≤ calculate_cagr witDf 2 := by
    rw [witDf_cagr, minCagr]
    norm_num
  exact ⟨⟨by decide, hsma, hk, hcagr⟩,
    analyze_stock_checklist witDf none false (1100/17) (by decide) hsma hk hcagr⟩

/-- C8: a 199-bar series classifies as INSUFFICIENT_DATA before any
indicator is computed; a 200-bar series whose SMA-200 and stochastic %K are
defined at the last bar always reaches full classification — one of BUY,
SELL or HOLD. -/
theorem analyze_stock_data_boundary :
    (∀ (df : List Bar) (ticker : Option String) (fri : Bool), df.length = 199 →
      (analyze_stock df ticker fri).signal = Signal.INSUFFICIENT_DATA) ∧
    (∀ (df : List Bar) (ticker : Option String) (fri : Bool), df.length = 200 →
      (sma200last df).isSome = true → (stochKlast df).isSome = true →
      (analyze_stock df ticker fri).signal = Signal.BUY ∨
      (analyze_stock df ticker fri).signal = Signal.SELL ∨
      (analyze_stock df ticker fri).signal = Signal.HOLD) := by
  constructor
  · intro df ticker fri h
    have hlt : df.length < smaPeriod := by
      rw [h, smaPeriod]
      norm_num
    simp only [analyze_stock]
    rw [if_pos hlt]
  · intro df ticker fri h hsma hk
    have g1 : ¬ (df.length < smaPeriod) := by
      rw [h, smaPeriod]
      norm_num
    have g2 : ¬ (sma200last df = none ∨ stochKlast df = none) := by
      rintro (hn | hn)
      · rw [hn] at hsma
        simp at hsma
      · rw [hn] at hk
        simp at hk
    simp only [analyze_stock]
    rw [if_neg g1, if_neg g2]
    split_ifs <;> simp

/-- C8 witness: the constant 199-bar series is INSUFFICIENT_DATA, and the
200-bar series with defined indicators (%K = 50, SMA-200 = 100) reaches a
full BUY/SELL/HOLD classification. -/
theorem analyze_stock_data_boundary_witness :
    (analyze_stock df199 df200ticker false).signal = Signal.INSUFFICIENT_DATA ∧
    ((analyze_stock df200 df200ticker false).signal = Signal.BUY ∨
      (analyze_stock df200 df200ticker false).signal = Signal.SELL ∨
      (analyze_stock df200 df200ticker false).signal = Signal.HOLD) :=
  ⟨analyze_stock_data_boundary.1 df199 df200ticker false (by decide),
    analyze_stock_data_boundary.2 df200 df200ticker false (by decide)
      (by with_unfolding_all rfl) (by with_unfolding_all rfl)⟩
